import Mathlib

/-!
# Verification of the book-manager domain logic

A shallow embedding of the server-side handlers of the book-manager
repository (Next.js route handlers over a Prisma store), together with
proofs and refutations of the specification's claims about them.

The store is modelled as an in-memory record of tables (`DB`); each
route handler becomes a pure function from a session, a parsed-or-raw
request body, the values drawn from the environment (generated ids,
one-time codes, the current time, the computed password hash) and the
current `DB` to a response together with the writes it performs.

Multi-write handlers are embedded through a *write script*: the list of
atomic units the handler executes.  A `db.$transaction(...)` block in the
source becomes a single element of the script; each bare `await db....`
write becomes its own element.  The handler's final state is the left
fold of the script over the initial state, so the script is the
authoritative embedding of the handler's effect, and the script's shape
is what atomicity claims are about.

Conventions:
* identifiers, roles, statuses, ISBNs and one-time codes are `String`s,
  exactly as in the source (the enums are string constants);
* timestamps are `Int` milliseconds (JS `Date.now()`); date *strings*
  that the handlers merely validate and store are kept as `String`;
* copy counters are `Int` (JS numbers holding DB integers);
* nullable columns are `Option`;
* `createdAt` / `updatedAt` bookkeeping columns and the unused `User`
  columns (`emailVerified`, `image`) are omitted: no embedded operation
  reads them;
* the primary-key constraint of the store (`id` columns) is part of the
  `create` primitives: creating a row whose id already exists fails the
  request (the store raises, the handler's catch returns a 500) with no
  writes performed.
-/

/-! ## Constants (src/lib/constants.ts) -/

namespace USER_ROLES

def ADMIN : String := "ADMIN"

def BOOKKEEPER : String := "BOOKKEEPER"

def USER : String := "USER"

end USER_ROLES

/-- JS member access on the `USER_ROLES` object: a declared key yields its
value, any other key — e.g. `"LIBRARIAN"`, which several call sites still
use after an incomplete rename — yields `undefined` (`none`). -/
def userRolesMember (key : String) : Option String :=
  if key = "ADMIN" then some USER_ROLES.ADMIN
  else if key = "BOOKKEEPER" then some USER_ROLES.BOOKKEEPER
  else if key = "USER" then some USER_ROLES.USER
  else none

namespace BOOK_STATUS

def AVAILABLE : String := "AVAILABLE"

def ISSUED : String := "ISSUED"

end BOOK_STATUS

namespace ISSUE_STATUS

def ISSUED : String := "ISSUED"

def RETURNED : String := "RETURNED"

end ISSUE_STATUS

namespace OTP_CONFIG

def EXPIRY_MINUTES : Int := 10

def LENGTH : Nat := 6

end OTP_CONFIG

namespace ERROR_MESSAGES

def UNAUTHORIZED : String := "Unauthorized"

def BOOK_NOT_FOUND : String := "Book not found"

def USER_NOT_FOUND : String := "User not found"

def INVALID_OTP : String := "Invalid OTP"

def OTP_EXPIRED : String := "OTP expired"

def NO_COPIES_AVAILABLE : String := "No copies available for this book"

def USER_ALREADY_EXISTS : String := "User with this email already exists"

def BOOK_ALREADY_EXISTS : String := "Book with this ISBN already exists"

def VALIDATION_ERROR : String := "Validation error"

def INTERNAL_SERVER_ERROR : String := "Internal server error"

end ERROR_MESSAGES

namespace SUCCESS_MESSAGES

def BOOK_ISSUED : String := "Book issued successfully"

def BOOK_RETURNED : String := "Book returned successfully"

end SUCCESS_MESSAGES

def BOOK_GENRES : List String :=
  ["FICTION", "NON_FICTION", "SCIENCE_FICTION", "MYSTERY", "ROMANCE",
   "THRILLER", "BIOGRAPHY", "HISTORY", "SCIENCE", "TECHNOLOGY",
   "PHILOSOPHY", "RELIGION", "ART", "MUSIC", "TRAVEL", "COOKING",
   "HEALTH", "EDUCATION", "CHILDREN", "YOUNG_ADULT", "OTHER"]

/-! ## Data model (prisma schema, per the initial migration) -/

structure Book where
  id : String
  title : String
  author : String
  isbn : String
  rfidTag : String
  genre : String
  publicationDate : String
  description : Option String
  coverImage : Option String
  totalCopies : Int
  availableCopies : Int
  status : String
  ownerId : String
deriving DecidableEq, Repr

structure BookIssue where
  id : String
  bookId : String
  userId : String
  issueDate : Int
  dueDate : String
  returnDate : Option Int
  status : String
  otpCode : Option String
  otpExpires : Option Int
deriving DecidableEq, Repr

structure BookOwnershipAudit where
  bookId : String
  fromOwnerId : Option String
  toOwnerId : String
  performedById : String
  notes : Option String
deriving DecidableEq, Repr

structure User where
  id : String
  name : String
  email : String
  role : String
  password : Option String
  createdAt : Int
deriving DecidableEq, Repr

structure DB where
  books : List Book
  issues : List BookIssue
  audits : List BookOwnershipAudit
  users : List User
deriving DecidableEq, Repr

/-- The caller identity the auth layer supplies (spec: an opaque identity
provider yielding a caller identity and role).  An unauthenticated request
is `none` at the call sites. -/
structure SessionUser where
  id : String
  role : String
deriving DecidableEq, Repr

/-! ## Store primitives -/

def findBook (db : DB) (id : String) : Option Book :=
  db.books.find? (fun b => b.id == id)

def findBookByIsbn (db : DB) (isbn : String) : Option Book :=
  db.books.find? (fun b => b.isbn == isbn)

def findUser (db : DB) (id : String) : Option User :=
  db.users.find? (fun u => u.id == id)

def findUserByEmail (db : DB) (email : String) : Option User :=
  db.users.find? (fun u => u.email == email)

/-- `db.bookIssue.findFirst({ where: { bookId, userId, status: ISSUED } })`. -/
def findFirstIssued (db : DB) (bookId userId : String) : Option BookIssue :=
  db.issues.find? (fun i =>
    i.bookId == bookId && i.userId == userId && i.status == ISSUE_STATUS.ISSUED)

deriving instance DecidableEq for Except

/-- An error response: HTTP status and the `error` field of the JSON body. -/
structure ApiErr where
  status : Nat
  msg : String
deriving DecidableEq, Repr

/-- A write script: the atomic units a handler executes in order.  One
`$transaction` block is one element; each bare awaited write is its own
element. -/
def applyWrites (db : DB) (ws : List (DB → DB)) : DB :=
  ws.foldl (fun s w => w s) db

/-! ## zod validation helpers

`z.string().datetime()` is its documented regex
`YYYY-MM-DDTHH:MM:SS(.digits)?Z`; the plain date schema of
`createBookSchema` is the regex `YYYY-MM-DD` (its additional
`new Date(...)` parseability refinement only rejects out-of-range
components and is not needed by any claim).  `z.string().email()` is
abstracted to the essential shape (an `@` strictly inside the string);
no claim depends on the exact email grammar. -/

def takeDigits : Nat → List Char → Option (List Char)
  | 0, cs => some cs
  | _ + 1, [] => none
  | n + 1, c :: cs => if c.isDigit then takeDigits n cs else none

def expectChar (ch : Char) : List Char → Option (List Char)
  | [] => none
  | c :: cs => if c = ch then some cs else none

def dropLeadingDigits : List Char → List Char
  | [] => []
  | c :: cs => if c.isDigit then dropLeadingDigits cs else c :: cs

def isIsoDatetime (s : String) : Bool :=
  let core := (((((((((takeDigits 4 s.toList).bind
    (expectChar '-')).bind (takeDigits 2)).bind
    (expectChar '-')).bind (takeDigits 2)).bind
    (expectChar 'T')).bind (takeDigits 2)).bind
    (expectChar ':')).bind (takeDigits 2)).bind
    (expectChar ':')
  match core.bind (takeDigits 2) with
  | none => false
  | some rest =>
    match rest with
    | ['Z'] => true
    | '.' :: c :: cs =>
      c.isDigit && (dropLeadingDigits (c :: cs) == ['Z'])
    | _ => false

def isDateYMD (s : String) : Bool :=
  match ((((takeDigits 4 s.toList).bind
    (expectChar '-')).bind (takeDigits 2)).bind
    (expectChar '-')).bind (takeDigits 2) with
  | some [] => true
  | _ => false

def emailValid (s : String) : Bool :=
  s.toList.contains '@' && s.front ≠ '@' && s.back ≠ '@'

/-! ## Request bodies and their zod schemas -/

/-- Body of `POST /api/issues` (issueBookSchema). -/
structure IssueBody where
  bookId : String
  userId : String
  dueDate : String
deriving DecidableEq, Repr

def issueBodyValid (b : IssueBody) : Bool :=
  b.bookId.length ≥ 1 && b.userId.length ≥ 1 && isIsoDatetime b.dueDate

/-- Body of `PUT /api/issues` (returnBookSchema). -/
structure ReturnBody where
  bookId : String
  userId : String
  otpCode : String
deriving DecidableEq, Repr

def returnBodyValid (b : ReturnBody) : Bool :=
  b.bookId.length ≥ 1 && b.userId.length ≥ 1 && b.otpCode.length ≥ OTP_CONFIG.LENGTH

/-- Body of `PATCH /api/books/[id]/ownership` (transferOwnershipSchema:
`newOwnerId` and `notes` both required, min length 1). -/
structure TransferBody where
  newOwnerId : String
  notes : String
deriving DecidableEq, Repr

def transferBodyValid (b : TransferBody) : Bool :=
  b.newOwnerId.length ≥ 1 && b.notes.length ≥ 1

/-- Body of the books-route `PATCH` (plain JSON destructuring, no zod):
`notes` may be absent. -/
structure BooksPatchBody where
  bookId : String
  newOwnerId : String
  notes : Option String
deriving DecidableEq, Repr

/-- Body of the book-creation POSTs (createBookSchema / bookSchema; the two
differ only in the publicationDate grammar, selected by a flag below). -/
structure CreateBookBody where
  title : String
  author : String
  isbn : String
  genre : String
  publicationDate : String
  description : Option String
  coverImage : Option String
  totalCopies : Int
deriving DecidableEq, Repr

def createBookBodyValid (dateAsYMD : Bool) (b : CreateBookBody) : Bool :=
  b.title.length ≥ 1 && b.author.length ≥ 1 && b.isbn.length ≥ 1 &&
  BOOK_GENRES.contains b.genre &&
  (if dateAsYMD then isDateYMD b.publicationDate else isIsoDatetime b.publicationDate) &&
  b.totalCopies ≥ 1

/-- Body of `PUT /api/books/[id]` (updateBookSchema: every field optional). -/
structure UpdateBookBody where
  title : Option String
  author : Option String
  isbn : Option String
  genre : Option String
  publicationDate : Option String
  description : Option String
  coverImage : Option String
  totalCopies : Option Int
deriving DecidableEq, Repr

def optValid (check : α → Bool) : Option α → Bool
  | none => true
  | some x => check x

def updateBookBodyValid (b : UpdateBookBody) : Bool :=
  optValid (fun s => s.length ≥ 1) b.title &&
  optValid (fun s => s.length ≥ 1) b.author &&
  optValid (fun s => s.length ≥ 1) b.isbn &&
  optValid (fun g => BOOK_GENRES.contains g) b.genre &&
  optValid isIsoDatetime b.publicationDate &&
  optValid (fun n => n ≥ 1) b.totalCopies

/-- Body of the user-creation POSTs. `role` is absent (`none`) or a string. -/
structure CreateUserBody where
  name : String
  email : String
  password : String
  role : Option String
deriving DecidableEq, Repr

/-! ## Circulation Manager: POST /api/issues (issueBook)

The role check of both issue handlers is
`![USER_ROLES.ADMIN, USER_ROLES.LIBRARIAN].includes(role)`:
`USER_ROLES` declares no `LIBRARIAN` key, so the member access yields
`undefined` and the allowed list is `["ADMIN", undefined]`. -/

def issuesAllowedRoles : List (Option String) :=
  [userRolesMember "ADMIN", userRolesMember "LIBRARIAN"]

def issuesRoleAllowed (role : String) : Bool :=
  issuesAllowedRoles.contains (some role)

/-- Payload of a successful issue: the created row and the plaintext code. -/
structure IssueOk where
  bookIssue : BookIssue
  otpCode : String
deriving DecidableEq, Repr

/-- `POST /api/issues` — response and write script.  `genId` is the id the
store generates for the new row, `genOtp` the generated one-time code,
`now` the current time (ms). -/
def issuesPOSTCore (sess : Option SessionUser) (body : IssueBody)
    (genId genOtp : String) (now : Int) (db : DB) :
    Except ApiErr IssueOk × List (DB → DB) :=
  match sess with
  | none => (.error ⟨401, ERROR_MESSAGES.UNAUTHORIZED⟩, [])
  | some u =>
    if !issuesRoleAllowed u.role then
      (.error ⟨401, ERROR_MESSAGES.UNAUTHORIZED⟩, [])
    else if !issueBodyValid body then
      (.error ⟨400, ERROR_MESSAGES.VALIDATION_ERROR⟩, [])
    else match findBook db body.bookId with
    | none => (.error ⟨404, ERROR_MESSAGES.BOOK_NOT_FOUND⟩, [])
    | some book =>
      if book.availableCopies ≤ 0 then
        (.error ⟨400, ERROR_MESSAGES.NO_COPIES_AVAILABLE⟩, [])
      else match findUser db body.userId with
      | none => (.error ⟨404, ERROR_MESSAGES.USER_NOT_FOUND⟩, [])
      | some _ =>
        let newIssue : BookIssue :=
          { id := genId
            bookId := body.bookId
            userId := body.userId
            issueDate := now
            dueDate := body.dueDate
            returnDate := none
            status := ISSUE_STATUS.ISSUED
            otpCode := some genOtp
            otpExpires := some (now + OTP_CONFIG.EXPIRY_MINUTES * 60 * 1000) }
        if db.issues.any (fun i => i.id == genId) then
          (.error ⟨500, ERROR_MESSAGES.INTERNAL_SERVER_ERROR⟩, [])
        else
          (.ok ⟨newIssue, genOtp⟩,
           [fun (s : DB) => { s with issues := s.issues ++ [newIssue] },
            fun (s : DB) => { s with books := s.books.map (fun b =>
              if b.id == body.bookId then
                { b with
                    availableCopies := book.availableCopies - 1
                    status := if book.availableCopies - 1 = 0
                      then BOOK_STATUS.ISSUED else BOOK_STATUS.AVAILABLE }
              else b) }])

def issuesPOST (sess : Option SessionUser) (body : IssueBody)
    (genId genOtp : String) (now : Int) (db : DB) :
    Except ApiErr IssueOk × DB :=
  ((issuesPOSTCore sess body genId genOtp now db).fst,
   applyWrites db (issuesPOSTCore sess body genId genOtp now db).snd)

/-! ## Circulation Manager: PUT /api/issues (returnBook) -/

/-- `PUT /api/issues` — response and write script.  `now` is the current
time, used both for the expiry comparison and the stamped return date. -/
def issuesPUTCore (sess : Option SessionUser) (body : ReturnBody)
    (now : Int) (db : DB) :
    Except ApiErr String × List (DB → DB) :=
  match sess with
  | none => (.error ⟨401, ERROR_MESSAGES.UNAUTHORIZED⟩, [])
  | some u =>
    if !issuesRoleAllowed u.role then
      (.error ⟨401, ERROR_MESSAGES.UNAUTHORIZED⟩, [])
    else if !returnBodyValid body then
      (.error ⟨400, ERROR_MESSAGES.VALIDATION_ERROR⟩, [])
    else match findFirstIssued db body.bookId body.userId with
    | none => (.error ⟨404, ERROR_MESSAGES.BOOK_NOT_FOUND⟩, [])
    | some bookIssue =>
      if bookIssue.otpCode ≠ some body.otpCode then
        (.error ⟨400, ERROR_MESSAGES.INVALID_OTP⟩, [])
      else if (match bookIssue.otpExpires with
               | some t => decide (now > t)
               | none => false) then
        (.error ⟨400, ERROR_MESSAGES.OTP_EXPIRED⟩, [])
      else
        (.ok SUCCESS_MESSAGES.BOOK_RETURNED,
         [fun (s : DB) => { s with issues := s.issues.map (fun i =>
            if i.id == bookIssue.id then
              { i with status := ISSUE_STATUS.RETURNED, returnDate := some now }
            else i) },
          fun (s : DB) => match findBook s body.bookId with
            | some book => { s with books := s.books.map (fun b =>
                if b.id == body.bookId then
                  { b with
                      availableCopies := book.availableCopies + 1
                      status := BOOK_STATUS.AVAILABLE }
                else b) }
            | none => s])

def issuesPUT (sess : Option SessionUser) (body : ReturnBody)
    (now : Int) (db : DB) : Except ApiErr String × DB :=
  ((issuesPUTCore sess body now db).fst,
   applyWrites db (issuesPUTCore sess body now db).snd)

/-! ## Ownership Transfer Manager: PATCH /api/books/[id]/ownership

The dedicated route handler: rejects a transfer to the current owner and
wraps its two writes in one `$transaction`. -/

def ownershipPATCHCore (sess : Option SessionUser) (id : String)
    (body : TransferBody) (db : DB) :
    Except ApiErr Book × List (DB → DB) :=
  match sess with
  | none => (.error ⟨401, ERROR_MESSAGES.UNAUTHORIZED⟩, [])
  | some u =>
    if !transferBodyValid body then
      (.error ⟨400, "Invalid request data"⟩, [])
    else match findBook db id with
    | none => (.error ⟨404, ERROR_MESSAGES.BOOK_NOT_FOUND⟩, [])
    | some book =>
      match findUser db body.newOwnerId with
      | none => (.error ⟨404, "New owner not found"⟩, [])
      | some newOwner =>
        if newOwner.role ≠ USER_ROLES.BOOKKEEPER then
          (.error ⟨400, "New owner must be a bookkeeper"⟩, [])
        else
          let isOwner := book.ownerId == u.id
          let isAdmin := u.role == USER_ROLES.ADMIN
          if !isOwner && !isAdmin then
            (.error ⟨403, "Only the book owner or administrator can transfer ownership"⟩, [])
          else if book.ownerId == body.newOwnerId then
            (.error ⟨400, "Cannot transfer ownership to the current owner"⟩, [])
          else if u.id = "" then
            (.error ⟨400, "User ID not found in session"⟩, [])
          else
            (.ok { book with ownerId := body.newOwnerId },
             [fun (s : DB) =>
               let s1 : DB := { s with books := s.books.map (fun b =>
                 if b.id == id then { b with ownerId := body.newOwnerId } else b) }
               { s1 with audits := s1.audits ++
                 [{ bookId := id
                    fromOwnerId := some book.ownerId
                    toOwnerId := body.newOwnerId
                    performedById := u.id
                    notes := some body.notes }] }])

def ownershipPATCH (sess : Option SessionUser) (id : String)
    (body : TransferBody) (db : DB) : Except ApiErr Book × DB :=
  ((ownershipPATCHCore sess id body db).fst,
   applyWrites db (ownershipPATCHCore sess id body db).snd)

/-! ## Ownership transfer, books-route variant (`PATCH /api/books`)

No transfer-to-current-owner check, no transaction: the owner update and
the audit append are two separate writes.  The success payload is the
book re-fetched after the writes. -/

def booksPATCHCore (sess : Option SessionUser) (body : BooksPatchBody)
    (db : DB) : Except ApiErr (DB → Option Book) × List (DB → DB) :=
  match sess with
  | none => (.error ⟨401, ERROR_MESSAGES.UNAUTHORIZED⟩, [])
  | some u =>
    if !([USER_ROLES.ADMIN, USER_ROLES.BOOKKEEPER].contains u.role) then
      (.error ⟨401, ERROR_MESSAGES.UNAUTHORIZED⟩, [])
    else if body.bookId = "" || body.newOwnerId = "" then
      (.error ⟨400, "Book ID and new owner ID are required"⟩, [])
    else match findBook db body.bookId with
    | none => (.error ⟨404, ERROR_MESSAGES.BOOK_NOT_FOUND⟩, [])
    | some book =>
      match db.users.find? (fun x =>
        x.id == body.newOwnerId && x.role == USER_ROLES.BOOKKEEPER) with
      | none => (.error ⟨400, "New owner must be a bookkeeper"⟩, [])
      | some _ =>
        let isOwner := book.ownerId == u.id
        let isAdmin := u.role == USER_ROLES.ADMIN
        if !isOwner && !isAdmin then
          (.error ⟨403, "Only the current owner or admin can transfer ownership"⟩, [])
        else
          let noteText : String :=
            match body.notes with
            | some s => if s ≠ "" then s
                else "Ownership transferred by " ++ (if isAdmin then "admin" else "owner")
            | none => "Ownership transferred by " ++ (if isAdmin then "admin" else "owner")
          (.ok (fun s => findBook s body.bookId),
           [fun (s : DB) => { s with books := s.books.map (fun b =>
              if b.id == body.bookId then { b with ownerId := body.newOwnerId } else b) },
            fun (s : DB) => { s with audits := s.audits ++
              [{ bookId := body.bookId
                 fromOwnerId := some book.ownerId
                 toOwnerId := body.newOwnerId
                 performedById := u.id
                 notes := some noteText }] }])

def booksPATCH (sess : Option SessionUser) (body : BooksPatchBody)
    (db : DB) : Except ApiErr (Option Book) × DB :=
  ((booksPATCHCore sess body db).fst.map
    (fun f => f (applyWrites db (booksPATCHCore sess body db).snd)),
   applyWrites db (booksPATCHCore sess body db).snd)

/-! ## Catalog Manager: book creation

`booksOwnersPOST` is the owner-audited route: the book insert and the
initial audit row are one `$transaction`.  `booksPagePOST` is the other
audited variant: the same two writes, sequential, no transaction (with
owner resolution: an admin's book is assigned to the first bookkeeper). -/

def newBookRow (body : CreateBookBody) (genBookId genRfid ownerId : String) : Book :=
  { id := genBookId
    title := body.title
    author := body.author
    isbn := body.isbn
    rfidTag := genRfid
    genre := body.genre
    publicationDate := body.publicationDate
    description := body.description
    coverImage := body.coverImage
    totalCopies := body.totalCopies
    availableCopies := body.totalCopies
    status := BOOK_STATUS.AVAILABLE
    ownerId := ownerId }

def booksOwnersPOSTCore (sess : Option SessionUser) (body : CreateBookBody)
    (genBookId genRfid : String) (db : DB) :
    Except ApiErr Book × List (DB → DB) :=
  match sess with
  | none => (.error ⟨401, ERROR_MESSAGES.UNAUTHORIZED⟩, [])
  | some u =>
    if !([USER_ROLES.ADMIN, USER_ROLES.BOOKKEEPER].contains u.role) then
      (.error ⟨401, ERROR_MESSAGES.UNAUTHORIZED⟩, [])
    else if !createBookBodyValid true body then
      (.error ⟨400, ERROR_MESSAGES.VALIDATION_ERROR⟩, [])
    else match findBookByIsbn db body.isbn with
    | some _ => (.error ⟨400, ERROR_MESSAGES.BOOK_ALREADY_EXISTS⟩, [])
    | none =>
      if u.id = "" then
        (.error ⟨400, "Unable to determine book owner"⟩, [])
      else if db.books.any (fun b => b.id == genBookId) then
        (.error ⟨500, ERROR_MESSAGES.INTERNAL_SERVER_ERROR⟩, [])
      else
        let book := newBookRow body genBookId genRfid u.id
        (.ok book,
         [fun (s : DB) =>
           let s1 := { s with books := s.books ++ [book] }
           { s1 with audits := s1.audits ++
             [{ bookId := book.id
                fromOwnerId := none
                toOwnerId := u.id
                performedById := u.id
                notes := some "Initial book creation and ownership assignment" }] }])

def booksOwnersPOST (sess : Option SessionUser) (body : CreateBookBody)
    (genBookId genRfid : String) (db : DB) : Except ApiErr Book × DB :=
  ((booksOwnersPOSTCore sess body genBookId genRfid db).fst,
   applyWrites db (booksOwnersPOSTCore sess body genBookId genRfid db).snd)

def booksPagePOSTCore (sess : Option SessionUser) (body : CreateBookBody)
    (genBookId genRfid : String) (db : DB) :
    Except ApiErr Book × List (DB → DB) :=
  match sess with
  | none => (.error ⟨401, ERROR_MESSAGES.UNAUTHORIZED⟩, [])
  | some u =>
    if !([USER_ROLES.ADMIN, USER_ROLES.BOOKKEEPER].contains u.role) then
      (.error ⟨401, ERROR_MESSAGES.UNAUTHORIZED⟩, [])
    else if !createBookBodyValid false body then
      (.error ⟨400, ERROR_MESSAGES.VALIDATION_ERROR⟩, [])
    else match findBookByIsbn db body.isbn with
    | some _ => (.error ⟨400, ERROR_MESSAGES.BOOK_ALREADY_EXISTS⟩, [])
    | none =>
      let ownerId? : Except ApiErr String :=
        if u.role == USER_ROLES.ADMIN then
          match db.users.find? (fun x => x.role == USER_ROLES.BOOKKEEPER) with
          | none => .error ⟨400, "No bookkeeper found to assign ownership"⟩
          | some fb => .ok fb.id
        else .ok u.id
      match ownerId? with
      | .error e => (.error e, [])
      | .ok ownerId =>
        if db.books.any (fun b => b.id == genBookId) then
          (.error ⟨500, ERROR_MESSAGES.INTERNAL_SERVER_ERROR⟩, [])
        else
          let book := newBookRow body genBookId genRfid ownerId
          (.ok book,
           [fun (s : DB) => { s with books := s.books ++ [book] },
            fun (s : DB) => { s with audits := s.audits ++
              [{ bookId := book.id
                 fromOwnerId := none
                 toOwnerId := ownerId
                 performedById := u.id
                 notes := some "Initial book creation and ownership assignment" }] }])

def booksPagePOST (sess : Option SessionUser) (body : CreateBookBody)
    (genBookId genRfid : String) (db : DB) : Except ApiErr Book × DB :=
  ((booksPagePOSTCore sess body genBookId genRfid db).fst,
   applyWrites db (booksPagePOSTCore sess body genBookId genRfid db).snd)

/-! ## Catalog Manager: PUT /api/books/[id] (updateBook)

A single write; the handler admits only the ADMIN role. -/

def applyBookUpdate (body : UpdateBookBody) (b : Book) : Book :=
  { b with
      title := body.title.getD b.title
      author := body.author.getD b.author
      isbn := body.isbn.getD b.isbn
      genre := body.genre.getD b.genre
      publicationDate := body.publicationDate.getD b.publicationDate
      description := match body.description with
        | some d => some d
        | none => b.description
      coverImage := match body.coverImage with
        | some c => some c
        | none => b.coverImage
      totalCopies := body.totalCopies.getD b.totalCopies }

def bookIdPUT (sess : Option SessionUser) (id : String)
    (body : UpdateBookBody) (db : DB) : Except ApiErr Book × DB :=
  match sess with
  | none => (.error ⟨401, ERROR_MESSAGES.UNAUTHORIZED⟩, db)
  | some u =>
    if u.role ≠ USER_ROLES.ADMIN then
      (.error ⟨401, ERROR_MESSAGES.UNAUTHORIZED⟩, db)
    else if !updateBookBodyValid body then
      (.error ⟨400, ERROR_MESSAGES.VALIDATION_ERROR⟩, db)
    else match findBook db id with
    | none => (.error ⟨404, ERROR_MESSAGES.BOOK_NOT_FOUND⟩, db)
    | some existingBook =>
      let isbnConflict : Bool :=
        match body.isbn with
        | some newIsbn =>
          newIsbn ≠ existingBook.isbn && (findBookByIsbn db newIsbn).isSome
        | none => false
      if isbnConflict then
        (.error ⟨400, ERROR_MESSAGES.BOOK_ALREADY_EXISTS⟩, db)
      else
        (.ok (applyBookUpdate body existingBook),
         { db with books := db.books.map (fun b =>
            if b.id == id then applyBookUpdate body b else b) })

/-! ## User creation

`usersAdminPOST` is the admin-gated creation handler (`requireAdmin` +
`createUserSchema`); its response is the explicit projection
`{ id, name, email, role, createdAt }`.  `registerPOST` is the open
registration variant; its response is the created row with the
`password` field destructured away.  Both response shapes are the
password-free `UserResponse`.  `hashed` stands for the bcrypt hash the
handler computes from the request's password. -/

structure UserResponse where
  id : String
  name : String
  email : String
  role : String
  createdAt : Int
deriving DecidableEq, Repr

def createUserRoleValid (r : Option String) : Bool :=
  match r with
  | some s => [USER_ROLES.USER, USER_ROLES.BOOKKEEPER, USER_ROLES.ADMIN].contains s
  | none => false

def createUserBodyValid (b : CreateUserBody) : Bool :=
  b.name.length ≥ 1 && emailValid b.email && b.password.length ≥ 6 &&
  createUserRoleValid b.role

def usersAdminPOST (sess : Option SessionUser) (body : CreateUserBody)
    (genId : String) (now : Int) (hashed : String) (db : DB) :
    Except ApiErr UserResponse × DB :=
  match sess with
  | none => (.error ⟨401, "Authentication required"⟩, db)
  | some u =>
    if u.role ≠ USER_ROLES.ADMIN then
      (.error ⟨403, "Only administrators can perform this action"⟩, db)
    else if !createUserBodyValid body then
      (.error ⟨400, "Invalid request data"⟩, db)
    else match findUserByEmail db body.email with
    | some _ => (.error ⟨400, ERROR_MESSAGES.USER_ALREADY_EXISTS⟩, db)
    | none =>
      if db.users.any (fun x => x.id == genId) then
        (.error ⟨500, ERROR_MESSAGES.INTERNAL_SERVER_ERROR⟩, db)
      else
        let user : User :=
          { id := genId
            name := body.name
            email := body.email
            role := (body.role).getD USER_ROLES.USER
            password := some hashed
            createdAt := now }
        (.ok { id := user.id
               name := user.name
               email := user.email
               role := user.role
               createdAt := user.createdAt },
         { db with users := db.users ++ [user] })

/-- The role enum of this variant's schema is
`[USER_ROLES.USER, USER_ROLES.LIBRARIAN, USER_ROLES.ADMIN]` — again an
access to the absent `LIBRARIAN` key — with default `USER_ROLES.USER`. -/
def registerRoleValid (r : Option String) : Bool :=
  match r with
  | some s => [userRolesMember "USER", userRolesMember "LIBRARIAN",
               userRolesMember "ADMIN"].contains (some s)
  | none => true

def registerBodyValid (b : CreateUserBody) : Bool :=
  b.name.length ≥ 1 && emailValid b.email && b.password.length ≥ 6 &&
  registerRoleValid b.role

def registerPOST (body : CreateUserBody) (genId : String) (now : Int)
    (hashed : String) (db : DB) : Except ApiErr UserResponse × DB :=
  if !registerBodyValid body then
    (.error ⟨400, ERROR_MESSAGES.VALIDATION_ERROR⟩, db)
  else match findUserByEmail db body.email with
  | some _ => (.error ⟨400, ERROR_MESSAGES.USER_ALREADY_EXISTS⟩, db)
  | none =>
    if db.users.any (fun x => x.id == genId) then
      (.error ⟨500, ERROR_MESSAGES.INTERNAL_SERVER_ERROR⟩, db)
    else
      let user : User :=
        { id := genId
          name := body.name
          email := body.email
          role := (body.role).getD USER_ROLES.USER
          password := some hashed
          createdAt := now }
      (.ok { id := user.id
             name := user.name
             email := user.email
             role := user.role
             createdAt := user.createdAt },
       { db with users := db.users ++ [user] })

/-! ## Valid states and operation sequences -/

/-- Number of `ISSUED` loan rows of a book — the logical counterpart of
`totalCopies - availableCopies`. -/
def issuedCountFor (issues : List BookIssue) (bid : String) : Int :=
  ((issues.filter (fun i =>
    i.bookId == bid && i.status == ISSUE_STATUS.ISSUED)).length : Int)

/-- A valid store state: row ids are unique (the store's primary keys),
every book's available-copy counter is non-negative and complements its
`ISSUED` loan rows, and the book status reflects the counter (spec: status
is `ISSUED` iff `availableCopies == 0`, otherwise `AVAILABLE`). -/
def ValidState (db : DB) : Prop :=
  (db.books.map Book.id).Nodup ∧
  (db.issues.map BookIssue.id).Nodup ∧
  ∀ b ∈ db.books,
    0 ≤ b.availableCopies ∧
    b.availableCopies + issuedCountFor db.issues b.id = b.totalCopies ∧
    b.status = (if b.availableCopies = 0 then BOOK_STATUS.ISSUED else BOOK_STATUS.AVAILABLE)

instance (db : DB) : Decidable (ValidState db) := by
  unfold ValidState
  infer_instance

/-- One circulation operation: an `issueBook` or a `returnBook` request
with everything its handler draws from the environment. -/
inductive LibOp where
  | issue (sess : Option SessionUser) (body : IssueBody)
      (genId genOtp : String) (now : Int)
  | ret (sess : Option SessionUser) (body : ReturnBody) (now : Int)
deriving Repr

def applyOp (db : DB) : LibOp → DB
  | .issue sess body genId genOtp now => (issuesPOST sess body genId genOtp now db).snd
  | .ret sess body now => (issuesPUT sess body now db).snd

def applyOps (db : DB) (ops : List LibOp) : DB :=
  ops.foldl applyOp db

/-! ## Concrete fixtures

A small store used by the concrete counterexamples and witnesses: two
bookkeepers, one admin, one member; one fully available book owned by the
first bookkeeper and one book whose single copy is out on loan. -/

def adminSess : SessionUser := { id := "u-ad", role := USER_ROLES.ADMIN }

def bkSess : SessionUser := { id := "u-bk", role := USER_ROLES.BOOKKEEPER }

def adminUser : User :=
  { id := "u-ad", name := "Ada", email := "ada@lib.example",
    role := USER_ROLES.ADMIN, password := some "h-ad", createdAt := 0 }

def bkUser : User :=
  { id := "u-bk", name := "Kay", email := "kay@lib.example",
    role := USER_ROLES.BOOKKEEPER, password := some "h-bk", createdAt := 0 }

def bkUser2 : User :=
  { id := "u-bk2", name := "Lee", email := "lee@lib.example",
    role := USER_ROLES.BOOKKEEPER, password := some "h-bk2", createdAt := 0 }

def memberUser : User :=
  { id := "u-m", name := "Mia", email := "mia@lib.example",
    role := USER_ROLES.USER, password := some "h-m", createdAt := 0 }

def book1 : Book :=
  { id := "b1", title := "Dune", author := "Herbert",
    isbn := "978-0000000001", rfidTag := "RFID_1_aa", genre := "FICTION",
    publicationDate := "1965-08-01T00:00:00Z", description := none,
    coverImage := none, totalCopies := 2, availableCopies := 2,
    status := BOOK_STATUS.AVAILABLE, ownerId := "u-bk" }

def book0 : Book :=
  { id := "b0", title := "Hamlet", author := "Shakespeare",
    isbn := "978-0000000002", rfidTag := "RFID_2_bb", genre := "FICTION",
    publicationDate := "1603-01-01T00:00:00Z", description := none,
    coverImage := none, totalCopies := 1, availableCopies := 0,
    status := BOOK_STATUS.ISSUED, ownerId := "u-bk" }

def issuedRow : BookIssue :=
  { id := "i1", bookId := "b0", userId := "u-m", issueDate := 0,
    dueDate := "2030-01-01T00:00:00Z", returnDate := none,
    status := ISSUE_STATUS.ISSUED, otpCode := some "123456",
    otpExpires := some 600000 }

def fixtureDB : DB :=
  { books := [book1, book0]
    issues := [issuedRow]
    audits := []
    users := [adminUser, bkUser, bkUser2, memberUser] }

/-! ## Generic list lemmas for keyed updates -/

/-- An update guarded by a key nobody in the list has is the identity. -/
theorem map_update_of_not_mem {α : Type} (key : α → String) (g : α → α)
    (k : String) (l : List α) (h : ∀ x ∈ l, key x ≠ k) :
    l.map (fun x => if key x == k then g x else x) = l := by
  induction l with
  | nil => rfl
  | cons a l ih =>
    have ha : ¬ ((key a == k) = true) := by
      simp only [beq_iff_eq]
      exact h a (List.mem_cons_self a l)
    simp only [List.map_cons, if_neg ha]
    rw [ih (fun x hx => h x (List.mem_cons_of_mem a hx))]

/-- Updating the unique element whose key is `k` changes a filter count
by swapping that element's contribution. -/
theorem filter_length_map_update {α : Type} (key : α → String) (p : α → Bool)
    (g : α → α) (k : String) (l : List α) (x₀ : α)
    (hnd : (l.map key).Nodup) (hx : x₀ ∈ l) (hk : key x₀ = k) :
    ((l.map (fun x => if key x == k then g x else x)).filter p).length
        + (if p x₀ then 1 else 0)
      = (l.filter p).length + (if p (g x₀) then 1 else 0) := by
  induction l with
  | nil => exact absurd hx (List.not_mem_nil x₀)
  | cons a l ih =>
    have hnd' : (l.map key).Nodup := (List.nodup_cons.mp hnd).2
    have hka : key a ∉ l.map key := (List.nodup_cons.mp hnd).1
    rcases List.mem_cons.mp hx with rfl | hx'
    · have hbeq : (key x₀ == k) = true := by simp only [beq_iff_eq]; exact hk
      have hrest : l.map (fun x => if key x == k then g x else x) = l := by
        refine map_update_of_not_mem key g k l (fun x hxl hxk => ?_)
        exact hka (hk ▸ hxk ▸ List.mem_map_of_mem key hxl)
      simp only [List.map_cons, if_pos hbeq, hrest]
      by_cases hpg : p (g x₀) <;> by_cases hpx : p x₀ <;>
        simp only [List.filter_cons, hpg, hpx, if_pos, if_neg,
          Bool.false_eq_true, if_false, if_true, List.length_cons] <;> omega
    · have hak : ¬ ((key a == k) = true) := by
        simp only [beq_iff_eq]
        intro heq
        exact hka (heq ▸ hk ▸ List.mem_map_of_mem key hx')
      simp only [List.map_cons, if_neg hak]
      have hih := ih hnd' hx'
      by_cases hpa : p a <;>
        simp only [List.filter_cons, hpa, if_pos, Bool.false_eq_true,
          if_false, if_true, List.length_cons] <;> omega

/-- Finding by key after a key-preserving keyed update is the update of
the original find. -/
theorem find?_map_update {α : Type} (key : α → String) (g : α → α)
    (k : String) (l : List α) (hg : ∀ x, key (g x) = key x) :
    (l.map (fun x => if key x == k then g x else x)).find? (fun x => key x == k)
      = (l.find? (fun x => key x == k)).map g := by
  induction l with
  | nil => rfl
  | cons a l ih =>
    by_cases h : key a = k
    · have hbeq : (key a == k) = true := by simp only [beq_iff_eq]; exact h
      have hbg : ((fun x => key x == k) (g a)) = true := by
        simp only [beq_iff_eq, hg a]; exact h
      simp only [List.map_cons, if_pos hbeq]
      rw [List.find?_cons_of_pos (p := fun x => key x == k) _ hbg,
        List.find?_cons_of_pos (p := fun x => key x == k) _ hbeq]
      rfl
    · have hbeq : ¬ ((key a == k) = true) := by simp only [beq_iff_eq]; exact h
      simp only [List.map_cons, if_neg hbeq]
      rw [List.find?_cons_of_neg (p := fun x => key x == k) _ hbeq,
        List.find?_cons_of_neg (p := fun x => key x == k) _ hbeq, ih]

/-! ## C1 — atomicity of the multi-write operations -/

/-- C1, counterexample: the issueBook handler (`POST /api/issues`) does
*not* execute its two writes inside one atomic transaction: its write
script has two separate units, and the state after only the first unit —
what a failure between the writes leaves visible — contains the new
`ISSUED` row while the book's `availableCopies` is still undecremented,
a state distinct from both the pre-state and the post-state. -/
theorem c1_counterexample :
    ¬ ((issuesPOSTCore (some adminSess)
        { bookId := "b1", userId := "u-m", dueDate := "2030-01-01T00:00:00Z" }
        "i2" "111111" 0 fixtureDB).snd.length ≤ 1) ∧
    ((applyWrites fixtureDB ((issuesPOSTCore (some adminSess)
        { bookId := "b1", userId := "u-m", dueDate := "2030-01-01T00:00:00Z" }
        "i2" "111111" 0 fixtureDB).snd.take 1)) ≠ fixtureDB ∧
     (applyWrites fixtureDB ((issuesPOSTCore (some adminSess)
        { bookId := "b1", userId := "u-m", dueDate := "2030-01-01T00:00:00Z" }
        "i2" "111111" 0 fixtureDB).snd.take 1)) ≠
       (issuesPOST (some adminSess)
        { bookId := "b1", userId := "u-m", dueDate := "2030-01-01T00:00:00Z" }
        "i2" "111111" 0 fixtureDB).snd ∧
     (findFirstIssued (applyWrites fixtureDB ((issuesPOSTCore (some adminSess)
        { bookId := "b1", userId := "u-m", dueDate := "2030-01-01T00:00:00Z" }
        "i2" "111111" 0 fixtureDB).snd.take 1)) "b1" "u-m").isSome = true ∧
     (findBook (applyWrites fixtureDB ((issuesPOSTCore (some adminSess)
        { bookId := "b1", userId := "u-m", dueDate := "2030-01-01T00:00:00Z" }
        "i2" "111111" 0 fixtureDB).snd.take 1)) "b1").map Book.availableCopies
       = some 2) := by
  decide

/-- C1, amended: only the dedicated ownership-transfer route and the
owner-audited book-creation route group their two writes into a single
transaction (write script of at most one unit); the issueBook and
returnBook handlers and the books-route transfer and creation variants
perform their two writes as separate sequential units (script length two
whenever they write at all), so a failure between the units can leave a
partial mutation visible. -/
theorem c1_amended_write_granularity
    (sessA : Option SessionUser) (idA : String) (bodyA : TransferBody)
    (sessB : Option SessionUser) (bodyB : CreateBookBody) (gidB gridB : String)
    (sessC : Option SessionUser) (bodyC : IssueBody) (gidC gotpC : String) (nowC : Int)
    (sessD : Option SessionUser) (bodyD : ReturnBody) (nowD : Int)
    (sessE : Option SessionUser) (bodyE : BooksPatchBody)
    (sessF : Option SessionUser) (bodyF : CreateBookBody) (gidF gridF : String)
    (db : DB) :
    (ownershipPATCHCore sessA idA bodyA db).snd.length ≤ 1 ∧
    (booksOwnersPOSTCore sessB bodyB gidB gridB db).snd.length ≤ 1 ∧
    ((issuesPOSTCore sessC bodyC gidC gotpC nowC db).snd.length = 0 ∨
     (issuesPOSTCore sessC bodyC gidC gotpC nowC db).snd.length = 2) ∧
    ((issuesPUTCore sessD bodyD nowD db).snd.length = 0 ∨
     (issuesPUTCore sessD bodyD nowD db).snd.length = 2) ∧
    ((booksPATCHCore sessE bodyE db).snd.length = 0 ∨
     (booksPATCHCore sessE bodyE db).snd.length = 2) ∧
    ((booksPagePOSTCore sessF bodyF gidF gridF db).snd.length = 0 ∨
     (booksPagePOSTCore sessF bodyF gidF gridF db).snd.length = 2) := by
  refine ⟨?_, ?_, ?_, ?_, ?_, ?_⟩
  · unfold ownershipPATCHCore
    repeat' split
    all_goals try simp
    all_goals (repeat' split)
    all_goals simp
  · unfold booksOwnersPOSTCore
    repeat' split
    all_goals try simp
    all_goals (repeat' split)
    all_goals simp
  · unfold issuesPOSTCore
    repeat' split
    all_goals try simp
    all_goals (repeat' split)
    all_goals simp
  · unfold issuesPUTCore
    repeat' split
    all_goals try simp
    all_goals (repeat' split)
    all_goals simp
  · unfold booksPATCHCore
    repeat' split
    all_goals try simp
    all_goals (repeat' split)
    all_goals simp
  · unfold booksPagePOSTCore
    repeat' split
    all_goals try simp
    all_goals (repeat' split)
    all_goals simp

theorem map_map_key {α : Type} (key : α → String) (f : α → α) (l : List α)
    (hf : ∀ x, key (f x) = key x) : (l.map f).map key = l.map key := by
  rw [List.map_map]
  exact List.map_congr_left (fun a _ => hf a)

theorem issuedCountFor_append (l : List BookIssue) (x : BookIssue) (bid : String) :
    issuedCountFor (l ++ [x]) bid =
      issuedCountFor l bid +
        (if (x.bookId == bid && x.status == ISSUE_STATUS.ISSUED) = true then 1 else 0) := by
  unfold issuedCountFor
  rw [List.filter_append]
  by_cases h : (x.bookId == bid && x.status == ISSUE_STATUS.ISSUED) = true <;>
    simp [List.filter_cons, h]

/-- A successful issueBook write pair (append an `ISSUED` row, decrement
the found book's counter and recompute its status) preserves validity. -/
theorem validState_issue_step (db : DB) (hv : ValidState db) (bid : String)
    (book : Book) (heqb : findBook db bid = some book)
    (havail : ¬ book.availableCopies ≤ 0)
    (newIssue : BookIssue) (hni : newIssue.bookId = bid)
    (hns : newIssue.status = ISSUE_STATUS.ISSUED)
    (hfresh : newIssue.id ∉ db.issues.map BookIssue.id)
    (st : String)
    (hst : st = (if book.availableCopies - 1 = 0
      then BOOK_STATUS.ISSUED else BOOK_STATUS.AVAILABLE)) :
    ValidState
      { books := db.books.map (fun b =>
          if b.id == bid then
            { b with availableCopies := book.availableCopies - 1, status := st }
          else b)
        issues := db.issues ++ [newIssue]
        audits := db.audits
        users := db.users } := by
  obtain ⟨hbn, hin, hinv⟩ := hv
  have hbkmem : book ∈ db.books := List.mem_of_find?_eq_some heqb
  have hbkid : book.id = bid := by
    have := List.find?_some heqb
    simpa using this
  refine ⟨?_, ?_, ?_⟩
  · rw [map_map_key Book.id _ _ (fun b => by by_cases hb : (b.id == bid) = true <;> simp [hb])]
    exact hbn
  · rw [List.map_append, List.nodup_append]
    refine ⟨hin, List.nodup_singleton _, ?_⟩
    intro x hx hx1
    simp only [List.map_cons, List.map_nil, List.mem_singleton] at hx1
    exact hfresh (hx1 ▸ hx)
  · intro b' hb'
    obtain ⟨a, ha, rfl⟩ := List.mem_map.mp hb'
    obtain ⟨hpos, hsum, hstat⟩ := hinv a ha
    by_cases hid : a.id = bid
    · have haeq : a = book :=
        List.inj_on_of_nodup_map hbn ha hbkmem (by rw [hid, hbkid])
      subst haeq
      have hcond : (a.id == bid) = true := by simp [hid]
      rw [if_pos hcond]
      refine ⟨?_, ?_, ?_⟩
      · show 0 ≤ a.availableCopies - 1
        omega
      · show a.availableCopies - 1 + issuedCountFor (db.issues ++ [newIssue]) a.id = a.totalCopies
        rw [issuedCountFor_append]
        have hmatch : (newIssue.bookId == a.id && newIssue.status == ISSUE_STATUS.ISSUED) = true := by
          simp [hni, hns, hid]
        rw [if_pos hmatch]
        omega
      · show st = (if a.availableCopies - 1 = 0 then BOOK_STATUS.ISSUED else BOOK_STATUS.AVAILABLE)
        exact hst
    · have hcond : ¬ ((a.id == bid) = true) := by simp [hid]
      rw [if_neg hcond]
      refine ⟨hpos, ?_, hstat⟩
      rw [issuedCountFor_append]
      have hnm : ¬ ((newIssue.bookId == a.id && newIssue.status == ISSUE_STATUS.ISSUED) = true) := by
        simp only [Bool.and_eq_true, beq_iff_eq, hni, hns, not_and]
        intro hcontr _
        exact hid hcontr.symm
      rw [if_neg hnm]
      simpa using hsum

theorem validState_issue (db : DB) (h : ValidState db) (sess : Option SessionUser)
    (body : IssueBody) (genId genOtp : String) (now : Int) :
    ValidState (issuesPOST sess body genId genOtp now db).snd := by
  unfold issuesPOST issuesPOSTCore
  repeat' split
  all_goals try (simpa [applyWrites] using h)
  all_goals
    rename_i x1 book heqb havail x2 usr hequ hfresh hzero
  all_goals
    exact validState_issue_step db h body.bookId book heqb havail _ rfl rfl
      (by simpa using hfresh) _ (by simp [hzero])

/-- A successful returnBook write pair (mark the found `ISSUED` row
`RETURNED`, then increment the book's counter if the book still exists)
preserves validity. -/
theorem validState_return_step (db : DB) (hv : ValidState db) (bid uid : String)
    (bi : BookIssue) (hfind : findFirstIssued db bid uid = some bi) (now : Int) :
    ValidState
      (match findBook { db with issues := db.issues.map (fun i =>
          if i.id == bi.id then
            { i with status := ISSUE_STATUS.RETURNED, returnDate := some now }
          else i) } bid with
       | some book =>
         { db with
             issues := db.issues.map (fun i =>
               if i.id == bi.id then
                 { i with status := ISSUE_STATUS.RETURNED, returnDate := some now }
               else i)
             books := db.books.map (fun b =>
               if b.id == bid then
                 { b with availableCopies := book.availableCopies + 1,
                          status := BOOK_STATUS.AVAILABLE }
               else b) }
       | none =>
         { db with issues := db.issues.map (fun i =>
             if i.id == bi.id then
               { i with status := ISSUE_STATUS.RETURNED, returnDate := some now }
             else i) }) := by
  obtain ⟨hbn, hin, hinv⟩ := hv
  have hbimem : bi ∈ db.issues := List.mem_of_find?_eq_some hfind
  have hbiprops := List.find?_some hfind
  simp only [Bool.and_eq_true, beq_iff_eq] at hbiprops
  obtain ⟨⟨hbibid, hbiuid⟩, hbist⟩ := hbiprops
  have hginv : ∀ bk : String,
      ((db.issues.map (fun i =>
          if i.id == bi.id then
            { i with status := ISSUE_STATUS.RETURNED, returnDate := some now }
          else i)).filter (fun i => i.bookId == bk && i.status == ISSUE_STATUS.ISSUED)).length
        + (if (bi.bookId == bk && bi.status == ISSUE_STATUS.ISSUED) = true then 1 else 0)
      = ((db.issues.filter (fun i => i.bookId == bk && i.status == ISSUE_STATUS.ISSUED)).length) := by
    intro bk
    have hup := filter_length_map_update BookIssue.id
      (fun i => i.bookId == bk && i.status == ISSUE_STATUS.ISSUED)
      (fun i => { i with status := ISSUE_STATUS.RETURNED, returnDate := some now })
      bi.id db.issues bi hin hbimem rfl
    have hret : ¬ (((fun i : BookIssue =>
        { i with status := ISSUE_STATUS.RETURNED, returnDate := some now }) bi).bookId == bk &&
        ((fun i : BookIssue =>
        { i with status := ISSUE_STATUS.RETURNED, returnDate := some now }) bi).status
          == ISSUE_STATUS.ISSUED) = true := by
      simp [ISSUE_STATUS.RETURNED, ISSUE_STATUS.ISSUED]
    rw [if_neg hret] at hup
    simp only [] at hup
    omega
  have hnodupIss : ((db.issues.map (fun i =>
      if i.id == bi.id then
        { i with status := ISSUE_STATUS.RETURNED, returnDate := some now }
      else i)).map BookIssue.id).Nodup := by
    rw [map_map_key BookIssue.id _ _
      (fun i => by by_cases hb : (i.id == bi.id) = true <;> simp [hb])]
    exact hin
  split
  case h_1 book heqbook =>
    have h0 : db.books.find? (fun x => x.id == bid) = some book := heqbook
    have hbkmem : book ∈ db.books := List.mem_of_find?_eq_some h0
    have hbkid : book.id = bid := by
      have := List.find?_some h0
      simpa using this
    refine ⟨?_, hnodupIss, ?_⟩
    · rw [map_map_key Book.id _ _
        (fun b => by by_cases hb : (b.id == bid) = true <;> simp [hb])]
      exact hbn
    · dsimp only
      intro b' hb'
      obtain ⟨a, ha, rfl⟩ := List.mem_map.mp hb'
      obtain ⟨hpos, hsum, hstat⟩ := hinv a ha
      by_cases hid : a.id = bid
      · have haeq : a = book :=
          List.inj_on_of_nodup_map hbn ha hbkmem (by rw [hid, hbkid])
        subst haeq
        have hcond : (a.id == bid) = true := by simp [hid]
        rw [if_pos hcond]
        have hmatch : (bi.bookId == a.id && bi.status == ISSUE_STATUS.ISSUED) = true := by
          simp [hbibid, hbist, hid]
        have hcnt := hginv a.id
        rw [if_pos hmatch] at hcnt
        refine ⟨by show (0 : Int) ≤ a.availableCopies + 1; omega, ?_, ?_⟩
        · simp only [issuedCountFor] at hsum hcnt ⊢
          omega
        · show BOOK_STATUS.AVAILABLE
            = (if a.availableCopies + 1 = 0 then BOOK_STATUS.ISSUED else BOOK_STATUS.AVAILABLE)
          rw [if_neg (by omega)]
      · have hcond : ¬ ((a.id == bid) = true) := by simp [hid]
        rw [if_neg hcond]
        have hnm : ¬ ((bi.bookId == a.id && bi.status == ISSUE_STATUS.ISSUED) = true) := by
          simp only [Bool.and_eq_true, beq_iff_eq, not_and]
          intro hcontr _
          exact hid (hcontr.symm.trans hbibid)
        have hcnt := hginv a.id
        rw [if_neg hnm] at hcnt
        refine ⟨hpos, ?_, hstat⟩
        unfold issuedCountFor at hsum ⊢
        omega
  case h_2 heqnone =>
    have h0 : db.books.find? (fun x => x.id == bid) = none := heqnone
    have hnone : ∀ b ∈ db.books, ¬ (b.id = bid) := by
      intro b hb hcontr
      have := List.find?_eq_none.mp h0 b hb
      simp [hcontr] at this
    refine ⟨hbn, hnodupIss, ?_⟩
    dsimp only
    intro b' hb'
    obtain ⟨hpos, hsum, hstat⟩ := hinv b' hb'
    have hnm : ¬ ((bi.bookId == b'.id && bi.status == ISSUE_STATUS.ISSUED) = true) := by
      simp only [Bool.and_eq_true, beq_iff_eq, not_and]
      intro hcontr _
      exact hnone b' hb' (hcontr.symm.trans hbibid)
    have hcnt := hginv b'.id
    rw [if_neg hnm] at hcnt
    refine ⟨hpos, ?_, hstat⟩
    unfold issuedCountFor at hsum ⊢
    omega

theorem validState_return (db : DB) (h : ValidState db) (sess : Option SessionUser)
    (body : ReturnBody) (now : Int) :
    ValidState (issuesPUT sess body now db).snd := by
  unfold issuesPUT issuesPUTCore
  repeat' split
  all_goals try (simpa [applyWrites] using h)
  rename_i x1 bi hfind hcode hexp
  exact validState_return_step db h body.bookId body.userId bi hfind now

theorem validState_applyOp (db : DB) (h : ValidState db) (op : LibOp) :
    ValidState (applyOp db op) := by
  cases op with
  | issue sess body genId genOtp now => exact validState_issue db h sess body genId genOtp now
  | ret sess body now => exact validState_return db h sess body now

theorem validState_applyOps (db : DB) (h : ValidState db) (ops : List LibOp) :
    ValidState (applyOps db ops) := by
  induction ops generalizing db with
  | nil => exact h
  | cons op ops ih => exact ih (applyOp db op) (validState_applyOp db h op)

/-- Common final computation of the round-trip law: after the issue
write (copy count decremented, some status `st`) and the return write
(count incremented from the re-read book, status set to `AVAILABLE`),
looking the book up yields its pre-issue count and — for a book that was
`AVAILABLE` — its pre-issue status. -/
theorem c8_final (l : List Book) (bid : String) (book : Book)
    (heqb : l.find? (fun b => b.id == bid) = some book)
    (hstat : book.status = BOOK_STATUS.AVAILABLE)
    (iss2 : List BookIssue) (aud : List BookOwnershipAudit) (us : List User)
    (st : String) :
    Option.map (fun b => (b.availableCopies, b.status))
      (List.find? (fun b => b.id == bid)
        (DB.books (match
            List.find? (fun b => b.id == bid)
              (l.map (fun b =>
                if b.id == bid then
                  { b with availableCopies := book.availableCopies - 1, status := st }
                else b)) with
          | some book1 =>
            { books := (l.map (fun b =>
                if b.id == bid then
                  { b with availableCopies := book.availableCopies - 1, status := st }
                else b)).map (fun b =>
                if b.id == bid then
                  { b with availableCopies := book1.availableCopies + 1,
                           status := BOOK_STATUS.AVAILABLE }
                else b)
              issues := iss2, audits := aud, users := us }
          | none =>
            { books := l.map (fun b =>
                if b.id == bid then
                  { b with availableCopies := book.availableCopies - 1, status := st }
                else b)
              issues := iss2, audits := aud, users := us })))
      = Option.map (fun b => (b.availableCopies, b.status))
          (List.find? (fun b => b.id == bid) l) := by
  have hbkid : book.id = bid := by
    have := List.find?_some heqb
    simpa using this
  have h1 : (l.map (fun b =>
      if b.id == bid then
        { b with availableCopies := book.availableCopies - 1, status := st }
      else b)).find? (fun b => b.id == bid)
      = some { book with availableCopies := book.availableCopies - 1, status := st } := by
    rw [find?_map_update Book.id (fun b =>
      { b with availableCopies := book.availableCopies - 1, status := st })
      bid l (fun b => rfl)]
    rw [heqb]
    rfl
  rw [h1]
  dsimp only
  rw [find?_map_update Book.id (fun b =>
    { b with
        availableCopies :=
          Book.availableCopies
            { book with availableCopies := book.availableCopies - 1, status := st } + 1
        status := BOOK_STATUS.AVAILABLE })
    bid _ (fun b => rfl)]
  rw [h1]
  rw [heqb]
  have hadd : book.availableCopies - 1 + 1 = book.availableCopies := by omega
  simp [hadd, hstat]

/-- C8: for every book in a valid state, a successful issueBook followed
by a successful returnBook for the same book restores the book's
`availableCopies` and status to their values immediately before the
issue (round-trip law). -/
theorem c8_roundtrip (db : DB) (hvalid : ValidState db)
    (u1 u2 : SessionUser) (body : IssueBody) (body2 : ReturnBody)
    (genId genOtp : String) (now now2 : Int)
    (r1 : IssueOk) (db1 : DB) (r2 : String) (db2 : DB)
    (hissue : issuesPOST (some u1) body genId genOtp now db = (.ok r1, db1))
    (hret : issuesPUT (some u2) body2 now2 db1 = (.ok r2, db2))
    (hbid : body2.bookId = body.bookId) :
    (findBook db2 body.bookId).map (fun b => (b.availableCopies, b.status))
      = (findBook db body.bookId).map (fun b => (b.availableCopies, b.status)) := by
  unfold issuesPOST issuesPOSTCore at hissue
  repeat' split at hissue
  all_goals try (refine absurd hissue ?_ ; simp ; done)
  all_goals
    rename_i x1 book heqb havail x2 usr hequ hfresh hzero
  all_goals (
    rw [Prod.mk.injEq] at hissue
    obtain ⟨hfst1, hdb1⟩ := hissue
    subst hdb1
    unfold issuesPUT issuesPUTCore at hret
    repeat' split at hret
    all_goals try (refine absurd hret ?_ ; simp ; done)
    all_goals (
      rename_i y1 bi hfind2 hcode hexp
      rw [Prod.mk.injEq] at hret
      obtain ⟨hfst2, hdb2⟩ := hret
      subst hdb2
      simp only [hbid] at hfind2 ⊢
      simp only [applyWrites, List.foldl, findBook]))
  all_goals (
    have heqb2 : db.books.find? (fun b => b.id == body.bookId) = some book := heqb
    have hmem : book ∈ db.books := List.mem_of_find?_eq_some heqb2
    obtain ⟨hn1, hn2, hinv⟩ := hvalid
    obtain ⟨hpos, hsum, hstat⟩ := hinv book hmem
    have hstatA : book.status = BOOK_STATUS.AVAILABLE := by
      rw [hstat, if_neg (by omega)]
    exact c8_final db.books body.bookId book heqb2 hstatA _ _ _ _)


/-! ## C2 — availableCopies stays within [0, totalCopies] -/

/-- C2: starting from a valid state, after any sequence of issueBook and
returnBook operations every book's `availableCopies` lies in
`[0, totalCopies]` (issueBook decrements only after checking
`availableCopies > 0`; returnBook increments only when an `ISSUED` row
exists for the book). -/
theorem c2_available_copies_bounds (db : DB) (h : ValidState db) (ops : List LibOp) :
    ∀ b ∈ (applyOps db ops).books,
      0 ≤ b.availableCopies ∧ b.availableCopies ≤ b.totalCopies := by
  intro b hb
  obtain ⟨_, _, hinv⟩ := validState_applyOps db h ops
  obtain ⟨hpos, hsum, _⟩ := hinv b hb
  have hc : 0 ≤ issuedCountFor (applyOps db ops).issues b.id := by
    unfold issuedCountFor
    omega
  exact ⟨hpos, by omega⟩

theorem c2_witness :
    0 ≤ book1.availableCopies ∧ book1.availableCopies ≤ book1.totalCopies :=
  c2_available_copies_bounds fixtureDB (by decide)
    [.issue (some adminSess) ⟨"b1", "u-m", "2030-01-01T00:00:00Z"⟩ "i2" "222222" 0,
     .ret (some adminSess) ⟨"b1", "u-m", "222222"⟩ 5]
    book1 (by decide)

theorem c8_witness :
    (findBook (issuesPUT (some adminSess) ⟨"b1", "u-m", "333333"⟩ 1
        (issuesPOST (some adminSess) ⟨"b1", "u-m", "2030-01-01T00:00:00Z"⟩
          "i2" "333333" 0 fixtureDB).snd).snd "b1").map
        (fun b => (b.availableCopies, b.status))
      = (findBook fixtureDB "b1").map (fun b => (b.availableCopies, b.status)) :=
  c8_roundtrip fixtureDB (by decide) adminSess adminSess
    ⟨"b1", "u-m", "2030-01-01T00:00:00Z"⟩ ⟨"b1", "u-m", "333333"⟩ "i2" "333333" 0 1
    ⟨{ id := "i2", bookId := "b1", userId := "u-m", issueDate := 0,
       dueDate := "2030-01-01T00:00:00Z", returnDate := none,
       status := ISSUE_STATUS.ISSUED, otpCode := some "333333",
       otpExpires := some 600000 }, "333333"⟩
    (issuesPOST (some adminSess) ⟨"b1", "u-m", "2030-01-01T00:00:00Z"⟩
      "i2" "333333" 0 fixtureDB).snd
    SUCCESS_MESSAGES.BOOK_RETURNED
    (issuesPUT (some adminSess) ⟨"b1", "u-m", "333333"⟩ 1
      (issuesPOST (some adminSess) ⟨"b1", "u-m", "2030-01-01T00:00:00Z"⟩
        "i2" "333333" 0 fixtureDB).snd).snd
    (by decide) (by decide) rfl

/-! ## C3 — the issueBook role check (code bug) -/

/-- C3 (code bug evaluated): the issueBook role check is
`[USER_ROLES.ADMIN, USER_ROLES.LIBRARIAN].includes(role)`, but
`USER_ROLES` declares no `LIBRARIAN` key, so the list is
`["ADMIN", undefined]`: a caller with the BOOKKEEPER role — which the
constants module and the spec name as the canonical staff role — is
rejected with 401 Unauthorized and no writes, while the same request
from an ADMIN succeeds.  `BOOKKEEPER ∈ {ADMIN, BOOKKEEPER}` yet the
check fails for it, contradicting the claim. -/
theorem c3_bookkeeper_rejected :
    issuesRoleAllowed USER_ROLES.BOOKKEEPER = false ∧
    issuesRoleAllowed USER_ROLES.ADMIN = true ∧
    issuesPOST (some bkSess) ⟨"b1", "u-m", "2030-01-01T00:00:00Z"⟩ "i2" "444444" 0 fixtureDB
      = (.error ⟨401, ERROR_MESSAGES.UNAUTHORIZED⟩, fixtureDB) ∧
    (issuesPOST (some adminSess) ⟨"b1", "u-m", "2030-01-01T00:00:00Z"⟩ "i2" "444444" 0
      fixtureDB).fst.isOk = true := by
  decide

/-! ## C4 — issuing with no available copies -/

/-- C4: an issueBook call by an authorized caller with a valid body, on a
book whose `availableCopies` is 0 or less, fails with
`NoCopiesAvailable` (HTTP 400, `NO_COPIES_AVAILABLE`) and performs no
state change: no Issue row is created and the Book is untouched. -/
theorem c4_no_copies_rejected (u : SessionUser) (body : IssueBody)
    (genId genOtp : String) (now : Int) (db : DB) (b : Book)
    (hrole : issuesRoleAllowed u.role = true)
    (hbody : issueBodyValid body = true)
    (hfind : findBook db body.bookId = some b)
    (havail : b.availableCopies ≤ 0) :
    issuesPOST (some u) body genId genOtp now db
      = (.error ⟨400, ERROR_MESSAGES.NO_COPIES_AVAILABLE⟩, db) := by
  unfold issuesPOST issuesPOSTCore
  rw [hfind]
  simp [hrole, hbody, havail, applyWrites]

theorem c4_witness :
    issuesPOST (some adminSess) ⟨"b0", "u-m", "2030-01-01T00:00:00Z"⟩ "i2" "555555" 0 fixtureDB
      = (.error ⟨400, ERROR_MESSAGES.NO_COPIES_AVAILABLE⟩, fixtureDB) :=
  c4_no_copies_rejected adminSess ⟨"b0", "u-m", "2030-01-01T00:00:00Z"⟩ "i2" "555555" 0
    fixtureDB book0 (by decide) (by decide) (by decide) (by decide)

/-! ## C7 — returning after the one-time code expired -/

/-- C7: a returnBook call made after the stored one-time-code expiry —
even with a code that exactly matches the stored one — fails with
`CodeExpired` (HTTP 400, `OTP_EXPIRED`) and leaves the Issue and Book
state unchanged. -/
theorem c7_expired_code_rejected (u : SessionUser) (body : ReturnBody)
    (now : Int) (db : DB) (bi : BookIssue) (t : Int)
    (hrole : issuesRoleAllowed u.role = true)
    (hbody : returnBodyValid body = true)
    (hfind : findFirstIssued db body.bookId body.userId = some bi)
    (hcode : bi.otpCode = some body.otpCode)
    (hexp : bi.otpExpires = some t)
    (hnow : now > t) :
    issuesPUT (some u) body now db
      = (.error ⟨400, ERROR_MESSAGES.OTP_EXPIRED⟩, db) := by
  unfold issuesPUT issuesPUTCore
  rw [hfind]
  simp [hrole, hbody, hcode, hexp, hnow, applyWrites]

theorem c7_witness :
    issuesPUT (some adminSess) ⟨"b0", "u-m", "123456"⟩ 600001 fixtureDB
      = (.error ⟨400, ERROR_MESSAGES.OTP_EXPIRED⟩, fixtureDB) :=
  c7_expired_code_rejected adminSess ⟨"b0", "u-m", "123456"⟩ 600001 fixtureDB
    issuedRow 600000 (by decide) (by decide) (by decide) (by decide) (by decide)
    (by decide)

/-! ## C5 — every successful transfer appends exactly one audit row -/

/-- C5: every successful transferOwnership call — through the dedicated
ownership route or through the books-route PATCH variant — appends
exactly one OwnershipAudit row whose `fromOwner` is the Book's owner
immediately before the call, whose `toOwner` is the new owner, and whose
`performedBy` is the acting caller. -/
theorem c5_transfer_audit_row
    (u1 : SessionUser) (id1 : String) (body1 : TransferBody)
    (dbA : DB) (r1 : Book) (dbA2 : DB)
    (u2 : SessionUser) (body2 : BooksPatchBody)
    (dbB : DB) (r2 : Option Book) (dbB2 : DB)
    (h1 : ownershipPATCH (some u1) id1 body1 dbA = (.ok r1, dbA2))
    (h2 : booksPATCH (some u2) body2 dbB = (.ok r2, dbB2)) :
    (∃ b, findBook dbA id1 = some b ∧
      dbA2.audits = dbA.audits ++
        [{ bookId := id1, fromOwnerId := some b.ownerId,
           toOwnerId := body1.newOwnerId, performedById := u1.id,
           notes := some body1.notes }]) ∧
    (∃ b, findBook dbB body2.bookId = some b ∧
      ∃ noteText, dbB2.audits = dbB.audits ++
        [{ bookId := body2.bookId, fromOwnerId := some b.ownerId,
           toOwnerId := body2.newOwnerId, performedById := u2.id,
           notes := some noteText }]) := by
  constructor
  · unfold ownershipPATCH ownershipPATCHCore at h1
    dsimp only at h1
    repeat' split at h1
    all_goals try (refine absurd h1 ?_ ; simp ; done)
    all_goals try (split at h1 <;> (refine absurd h1 ?_ ; simp ; done))
    all_goals (
      rw [Prod.mk.injEq] at h1
      obtain ⟨hfst, hdb⟩ := h1
      subst hdb
      exact ⟨_, by assumption, rfl⟩)
  · unfold booksPATCH booksPATCHCore at h2
    dsimp only at h2
    repeat' split at h2
    all_goals try (refine absurd h2 ?_ ; simp [Except.map] ; done)
    all_goals try (split at h2 <;> (refine absurd h2 ?_ ; simp [Except.map] ; done))
    all_goals (
      rw [Prod.mk.injEq] at h2
      obtain ⟨hfst, hdb⟩ := h2
      subst hdb
      exact ⟨_, by assumption, _, rfl⟩)

theorem c5_witness :
    (∃ b, findBook fixtureDB "b1" = some b ∧
      (ownershipPATCH (some adminSess) "b1" ⟨"u-bk2", "handover"⟩ fixtureDB).snd.audits
        = fixtureDB.audits ++
          [{ bookId := "b1", fromOwnerId := some b.ownerId, toOwnerId := "u-bk2",
             performedById := adminSess.id, notes := some "handover" }]) ∧
    (∃ b, findBook fixtureDB "b1" = some b ∧
      ∃ noteText,
        (booksPATCH (some adminSess) ⟨"b1", "u-bk2", none⟩ fixtureDB).snd.audits
          = fixtureDB.audits ++
            [{ bookId := "b1", fromOwnerId := some b.ownerId, toOwnerId := "u-bk2",
               performedById := adminSess.id, notes := some noteText }]) :=
  c5_transfer_audit_row adminSess "b1" ⟨"u-bk2", "handover"⟩ fixtureDB
    { book1 with ownerId := "u-bk2" }
    (ownershipPATCH (some adminSess) "b1" ⟨"u-bk2", "handover"⟩ fixtureDB).snd
    adminSess ⟨"b1", "u-bk2", none⟩ fixtureDB
    (findBook (booksPATCH (some adminSess) ⟨"b1", "u-bk2", none⟩ fixtureDB).snd "b1")
    (booksPATCH (some adminSess) ⟨"b1", "u-bk2", none⟩ fixtureDB).snd
    (by decide) (by decide)

/-! ## C6 — transferring to the current owner -/

/-- C6, counterexample: the books-route transferOwnership variant has no
no-op check: a transfer whose `newOwnerId` is the book's current owner
succeeds (does not fail with `NoOpTransfer`) and appends an audit row
with `fromOwner = toOwner`, refuting the claim as stated over every
transferOwnership call. -/
theorem c6_counterexample :
    (booksPATCH (some adminSess) ⟨"b1", "u-bk", none⟩ fixtureDB).fst.isOk = true ∧
    (booksPATCH (some adminSess) ⟨"b1", "u-bk", none⟩ fixtureDB).snd.audits
      = fixtureDB.audits ++
        [{ bookId := "b1", fromOwnerId := some "u-bk", toOwnerId := "u-bk",
           performedById := "u-ad", notes := some "Ownership transferred by admin" }] := by
  decide

/-- C6, amended: in the dedicated ownership route a transfer to the
current owner fails with HTTP 400
"Cannot transfer ownership to the current owner" and changes nothing —
no owner update, no audit row; the books-route PATCH variant lacks this
check and performs the transfer. -/
theorem c6_amended_noop_rejected (u : SessionUser) (id : String)
    (body : TransferBody) (db : DB) (b : Book) (newOwner : User)
    (hbody : transferBodyValid body = true)
    (hfind : findBook db id = some b)
    (hnew : findUser db body.newOwnerId = some newOwner)
    (hrole : newOwner.role = USER_ROLES.BOOKKEEPER)
    (hperm : b.ownerId = u.id ∨ u.role = USER_ROLES.ADMIN)
    (hnoop : b.ownerId = body.newOwnerId) :
    ownershipPATCH (some u) id body db
      = (.error ⟨400, "Cannot transfer ownership to the current owner"⟩, db) := by
  unfold ownershipPATCH ownershipPATCHCore
  rw [hfind, hnew]
  simp only [hbody, hrole, hnoop]
  have hcond : ¬ (¬ body.newOwnerId = u.id ∧ ¬ u.role = USER_ROLES.ADMIN) := by
    rcases hperm with hp2 | hp2
    · intro hc
      exact hc.1 (hnoop ▸ hp2)
    · intro hc
      exact hc.2 hp2
  simp [hcond, applyWrites]

theorem c6_witness :
    ownershipPATCH (some adminSess) "b1" ⟨"u-bk", "note"⟩ fixtureDB
      = (.error ⟨400, "Cannot transfer ownership to the current owner"⟩, fixtureDB) :=
  c6_amended_noop_rejected adminSess "b1" ⟨"u-bk", "note"⟩ fixtureDB book1 bkUser
    (by decide) (by decide) (by decide) (by decide) (Or.inr (by decide)) (by decide)

/-! ## C9 — updateBook authorization -/

/-- C9, counterexample: the updateBook handler admits only the ADMIN
role.  A caller who is the book's current owner but holds the BOOKKEEPER
role is rejected with 401 Unauthorized and the Book is unchanged —
refuting "an owner (even without the ADMIN role) is permitted to
update". -/
theorem c9_counterexample :
    bkSess.id = book1.ownerId ∧ bkSess.role ≠ USER_ROLES.ADMIN ∧
    bookIdPUT (some bkSess) "b1"
      { title := some "Dune Messiah", author := none, isbn := none, genre := none,
        publicationDate := none, description := none, coverImage := none,
        totalCopies := none } fixtureDB
      = (.error ⟨401, ERROR_MESSAGES.UNAUTHORIZED⟩, fixtureDB) := by
  decide

/-- C9, amended: updateBook succeeds only for callers holding the ADMIN
role; every other caller — the book's current owner included — receives
401 Unauthorized and the store is unchanged. -/
theorem c9_amended_admin_only (sess : Option SessionUser) (id : String)
    (body : UpdateBookBody) (db : DB)
    (h : sess.map SessionUser.role ≠ some USER_ROLES.ADMIN) :
    bookIdPUT sess id body db = (.error ⟨401, ERROR_MESSAGES.UNAUTHORIZED⟩, db) := by
  unfold bookIdPUT
  match sess with
  | none => rfl
  | some u =>
    have hr : u.role ≠ USER_ROLES.ADMIN := by
      simpa using h
    simp [hr]

theorem c9_witness :
    bookIdPUT (some bkSess) "b1"
      { title := some "Dune Messiah", author := none, isbn := none, genre := none,
        publicationDate := none, description := none, coverImage := none,
        totalCopies := none } fixtureDB
      = (.error ⟨401, ERROR_MESSAGES.UNAUTHORIZED⟩, fixtureDB) :=
  c9_amended_admin_only (some bkSess) "b1"
    { title := some "Dune Messiah", author := none, isbn := none, genre := none,
      publicationDate := none, description := none, coverImage := none,
      totalCopies := none } fixtureDB (by decide)

/-! ## C10 — credentials never flow into user-creation responses -/

/-- C10: for every successful admin user-creation and every successful
registration, the response is the password-free projection
`{ id, name, email, role, createdAt }` of the created user, and it is
identical for any other value of the computed password hash — the
credential value does not flow into the output. -/
theorem c10_password_confidential (db : DB) (sess : SessionUser)
    (abody rbody : CreateUserBody) (genIdA genIdR : String) (nowA nowR : Int)
    (h h' : String) (r1 r2 : UserResponse) (d1 d2 : DB)
    (h1 : usersAdminPOST (some sess) abody genIdA nowA h db = (.ok r1, d1))
    (h2 : registerPOST rbody genIdR nowR h db = (.ok r2, d2)) :
    r1 = { id := genIdA, name := abody.name, email := abody.email,
           role := abody.role.getD USER_ROLES.USER, createdAt := nowA } ∧
    r2 = { id := genIdR, name := rbody.name, email := rbody.email,
           role := rbody.role.getD USER_ROLES.USER, createdAt := nowR } ∧
    (usersAdminPOST (some sess) abody genIdA nowA h' db).fst = .ok r1 ∧
    (registerPOST rbody genIdR nowR h' db).fst = .ok r2 := by
  unfold usersAdminPOST at h1 ⊢
  unfold registerPOST at h2 ⊢
  repeat' split at h1
  all_goals try (refine absurd h1 ?_ ; simp ; done)
  repeat' split at h2
  all_goals try (refine absurd h2 ?_ ; simp ; done)
  all_goals (
    rw [Prod.mk.injEq] at h1 h2
    obtain ⟨hfst1, hdb1⟩ := h1
    obtain ⟨hfst2, hdb2⟩ := h2
    rw [Except.ok.injEq] at hfst1 hfst2
    subst hfst1
    subst hfst2
    refine ⟨rfl, rfl, ?_, ?_⟩ <;> (repeat' split) <;> simp_all)

theorem c10_witness :
    ({ id := "u-new1", name := "Nora", email := "nora@lib.example",
       role := "USER", createdAt := 7 } : UserResponse)
      = { id := "u-new1", name := "Nora", email := "nora@lib.example",
          role := (some "USER").getD USER_ROLES.USER, createdAt := 7 } ∧
    ({ id := "u-new2", name := "Omar", email := "omar@lib.example",
       role := "USER", createdAt := 8 } : UserResponse)
      = { id := "u-new2", name := "Omar", email := "omar@lib.example",
          role := (none : Option String).getD USER_ROLES.USER, createdAt := 8 } ∧
    (usersAdminPOST (some adminSess)
      ⟨"Nora", "nora@lib.example", "secretpw", some "USER"⟩ "u-new1" 7 "HASH2" fixtureDB).fst
      = .ok { id := "u-new1", name := "Nora", email := "nora@lib.example",
              role := "USER", createdAt := 7 } ∧
    (registerPOST ⟨"Omar", "omar@lib.example", "secretpw", none⟩ "u-new2" 8 "HASH2"
      fixtureDB).fst
      = .ok { id := "u-new2", name := "Omar", email := "omar@lib.example",
              role := "USER", createdAt := 8 } :=
  c10_password_confidential fixtureDB adminSess
    ⟨"Nora", "nora@lib.example", "secretpw", some "USER"⟩
    ⟨"Omar", "omar@lib.example", "secretpw", none⟩ "u-new1" "u-new2" 7 8
    "HASH1" "HASH2"
    { id := "u-new1", name := "Nora", email := "nora@lib.example",
      role := "USER", createdAt := 7 }
    { id := "u-new2", name := "Omar", email := "omar@lib.example",
      role := "USER", createdAt := 8 }
    (usersAdminPOST (some adminSess)
      ⟨"Nora", "nora@lib.example", "secretpw", some "USER"⟩ "u-new1" 7 "HASH1" fixtureDB).snd
    (registerPOST ⟨"Omar", "omar@lib.example", "secretpw", none⟩ "u-new2" 8 "HASH1"
      fixtureDB).snd
    (by decide) (by decide)
